import Mathlib

/-!
Verification of the service-supervision and mount-orchestration core of
OpenList-Desktop against its natural-language specification.

The Python source is shallowly embedded:
  * string manipulation (`str.strip`, `str.replace`, `str.split`, `re.sub`
    for the concrete patterns used) is implemented on `List Char`, with
    fuel-based structural recursion so that every definition evaluates by
    kernel reduction (`decide` / `rfl`);
  * the Qt/process/HTTP side effects of the controllers are modelled as an
    explicit action trace (`Act`), and the asynchronous callback chains
    (TaskExecutor `.then` continuations, `QTimer.singleShot` callbacks) as a
    single cooperative schedule executed in program order, as the spec's
    concurrency model (single-threaded core, completion callbacks delivered
    on the core thread) describes;
  * fallible Python operations return `Except PyExc _` (for instance the
    membership test `k not in x`, which raises `TypeError` when `x` is
    `None`).
Each definition carries a comment naming the Python function it embeds.
-/

namespace OpenList

/-! ## Python string primitives (List Char based, fuel-structural) -/

/-- Python `str.strip()` on a char list: drop whitespace from both ends. -/
def pyStripL (l : List Char) : List Char :=
  ((l.dropWhile Char.isWhitespace).reverse.dropWhile Char.isWhitespace).reverse

/-- Python `str.strip()` at `String` level. -/
def pyStripS (s : String) : String :=
  String.mk (pyStripL s.data)

/-- Fuel-driven core of Python `str.replace(old, new)`: replace every
non-overlapping occurrence of `old`, scanning left to right. The fuel is
only a structural-recursion device; `fuel ≥ s.length` always suffices. -/
def pyReplaceFuel (old new : List Char) : Nat → List Char → List Char
  | 0, s => s
  | _ + 1, [] => []
  | fuel + 1, c :: t =>
    if old ≠ [] ∧ old.isPrefixOf (c :: t) then
      new ++ pyReplaceFuel old new fuel (List.drop old.length (c :: t))
    else
      c :: pyReplaceFuel old new fuel t

/-- Python `str.replace(old, new)` on char lists. -/
def pyReplaceL (old new s : List Char) : List Char :=
  pyReplaceFuel old new s.length s

/-- Python `s.replace(old, new)` at `String` level. -/
def pyReplaceS (old new : String) (s : String) : String :=
  String.mk (pyReplaceL old.data new.data s.data)

/-- Python `s.startswith(p)`. -/
def pyStartsWith (p s : String) : Bool :=
  p.data.isPrefixOf s.data

/-- Helper for Python `s.split(sep, 1)` and `sep in s`: find the first
occurrence of `sep`, returning the part before it (via the reversed
accumulator) and the part after it. -/
def splitFirstAux (sep : List Char) (acc : List Char) :
    List Char → Option (List Char × List Char)
  | [] => none
  | c :: t =>
    if sep.isPrefixOf (c :: t) then
      some (acc.reverse, List.drop sep.length (c :: t))
    else
      splitFirstAux sep (c :: acc) t

/-- Python `sep in s` (substring test) for a nonempty separator. -/
def hasSubstrS (sep s : String) : Bool :=
  (splitFirstAux sep.data [] s.data).isSome

/-- Fuel-driven core of Python `s.split(sep)` (split on every occurrence). -/
def pySplitAllFuel (sep : List Char) : Nat → List Char → List (List Char)
  | 0, s => [s]
  | fuel + 1, s =>
    match splitFirstAux sep [] s with
    | none => [s]
    | some (a, b) => a :: pySplitAllFuel sep fuel b

/-- Python `s.split(sep)` on char lists. -/
def pySplitAllL (sep s : List Char) : List (List Char) :=
  pySplitAllFuel sep (s.length + 1) s

/-- Python `s.split(sep)[-1]` at `String` level (`split` never returns an
empty list, so the default branch is unreachable). -/
def pySplitLastS (sep s : String) : String :=
  String.mk ((pySplitAllL sep.data s.data).getLastD s.data)

/-- Python `s.split()` (split on whitespace runs, no empty fields):
accumulator-based word scanner. -/
def pySplitWsAux : List Char → List Char → List (List Char)
  | [], acc => if acc.isEmpty then [] else [acc.reverse]
  | c :: t, acc =>
    if c.isWhitespace then
      if acc.isEmpty then pySplitWsAux t [] else acc.reverse :: pySplitWsAux t []
    else
      pySplitWsAux t (c :: acc)

/-- Python `s.split()` at `String` level. -/
def pySplitWsS (s : String) : List String :=
  (pySplitWsAux s.data []).map String.mk

/-- Python `s.upper()` (ASCII uppercasing, which is what the config names
in this code base use). -/
def pyUpperS (s : String) : String :=
  String.mk (s.data.map Char.toUpper)

/-- Python `len(s) == 1 and s.isalpha()`. -/
def pySingleAlpha (s : String) : Bool :=
  s.data.length == 1 && s.data.all Char.isAlpha

/-! ## LineLogFormatter — `AlistService._format_log_line` -/

/-- The character-replacement step of `_format_log_line`:
`text.replace("&", "&").replace("<", "<").replace(">", ">")`.
Each replacement maps a character to itself, exactly as in the source. -/
def escapePass (t : String) : String :=
  pyReplaceS ">" ">" (pyReplaceS "<" "<" (pyReplaceS "&" "&" t))

/-- After `ESC [`, consume `[0-9;]*` and expect `m`; returns the remainder
after the escape sequence, mirroring the regex `\x1b\[[0-9;]*m`. -/
def takeAnsiParams : List Char → Option (List Char)
  | [] => none
  | c :: t =>
    if c.isDigit || c = ';' then takeAnsiParams t
    else if c = 'm' then some t
    else none

/-- Does an ANSI escape sequence `\x1b\[[0-9;]*m` start at this position?
If so, return the remainder of the string after it. -/
def ansiMatch : List Char → Option (List Char)
  | '\x1b' :: '[' :: u => takeAnsiParams u
  | _ => none

/-- Fuel-driven core of `re.sub(r"\x1b\[[0-9;]*m", "", text)`. -/
def ansiStripFuel : Nat → List Char → List Char
  | 0, s => s
  | _ + 1, [] => []
  | fuel + 1, c :: t =>
    match ansiMatch (c :: t) with
    | some rest => ansiStripFuel fuel rest
    | none => c :: ansiStripFuel fuel t

/-- `re.sub(r"\x1b\[[0-9;]*m", "", text)` on char lists. -/
def ansiStripL (s : List Char) : List Char :=
  ansiStripFuel (s.length + 1) s

/-- ANSI stripping at `String` level. -/
def ansiStripS (s : String) : String :=
  String.mk (ansiStripL s.data)

/-- The regex word-character class `\w` (ASCII model). -/
def isWordChar (c : Char) : Bool :=
  c.isAlphanum || c = '_'

/-- Case-insensitive match of `key` against a (prefix of) `s`; on success
returns the remainder of `s` after the match. -/
def matchKeyCI : List Char → List Char → Option (List Char)
  | [], s => some s
  | _ :: _, [] => none
  | k :: kt, c :: ct => if k.toLower = c.toLower then matchKeyCI kt ct else none

/-- The colored `<span>` wrapper the formatter substitutes for a matched
level keyword: `<span style="color: {color};">{key}</span>`. -/
def spanFor (color key : List Char) : List Char :=
  "<span style=\"color: ".data ++ color ++ ";\">".data ++ key ++ "</span>".data

/-- Fuel-driven core of one pass of
`re.sub(r"(\b" + key + r"\b)", span, text, flags=re.IGNORECASE)` for a
keyword made of word characters: scan left to right; a match needs a
non-word character (or the string start, tracked by `prevW`) before it and
a non-word character (or the end) after it; every match is replaced by the
colored span holding the canonical (uppercase) keyword. -/
def highlightFuel (key color : List Char) : Nat → Bool → List Char → List Char
  | 0, _, s => s
  | _ + 1, _, [] => []
  | fuel + 1, prevW, c :: t =>
    match (if prevW || key.isEmpty then none else matchKeyCI key (c :: t)) with
    | some rest =>
      if (match rest with | [] => true | d :: _ => !isWordChar d) then
        spanFor color key ++ highlightFuel key color fuel true rest
      else
        c :: highlightFuel key color fuel (isWordChar c) t
    | none => c :: highlightFuel key color fuel (isWordChar c) t

/-- One `re.sub` pass for one `(keyword, color)` pair of `log_colors`. -/
def highlightPass (s : List Char) (kc : List Char × List Char) : List Char :=
  highlightFuel kc.1 kc.2 (s.length + 1) false s

/-- The `log_colors` dict of `_format_log_line`, in insertion order. -/
def logKeys : List (List Char × List Char) :=
  [("ERROR".data, "#FF4444".data), ("WARN".data, "#FFAA00".data),
   ("WARNING".data, "#FFAA00".data), ("INFO".data, "#44AAFF".data)]

/-- The `else` branch of `_format_log_line`: one `re.sub` pass per level
keyword, applied sequentially in dict order. -/
def highlightAll (s : List Char) : List Char :=
  logKeys.foldl highlightPass s

/-- `log_colors.get(level, "#FFFFFF")`. -/
def logColor (level : String) : String :=
  if level = "ERROR" then "#FF4444"
  else if level = "WARN" then "#FFAA00"
  else if level = "WARNING" then "#FFAA00"
  else if level = "INFO" then "#44AAFF"
  else "#FFFFFF"

/-- `AlistService._format_log_line(text, level)`: character replacements,
ANSI stripping, then either a colored level tag prefixed via
`re.sub(r"^", ...)` (which, without MULTILINE, substitutes exactly once at
position 0) or keyword highlighting. -/
def formatLogLine (text : String) (level : Option String) : String :=
  let t1 := escapePass text
  let t2 := ansiStripS t1
  match level with
  | some lvl =>
      "<span style=\"color: " ++ logColor lvl ++ ";\">" ++ lvl ++ ": </span>" ++ t2
  | none => String.mk (highlightAll t2.data)

/-! ## AddMountDialog.get_mount_config — fsExpression derivation -/

/-- The `remote_path` / `fs` derivation of `AddMountDialog.get_mount_config`:
strip the input; on Windows replace `\` by `/`; if the result is neither
empty nor `"/"`, ensure a leading `/` and prepend `webdav:`; otherwise the
`fs` is `"webdav:/"`. Returns `(remote_path, fs)`. -/
def deriveRemoteAndFs (isWindows : Bool) (input : String) : String × String :=
  let rp0 := pyStripS input
  let rp1 := if isWindows then pyReplaceS "\\" "/" rp0 else rp0
  if rp1 ≠ "" ∧ rp1 ≠ "/" then
    let rp2 := if !(pyStartsWith "/" rp1) then "/" ++ rp1 else rp1
    (rp2, "webdav:" ++ rp2)
  else
    (rp1, "webdav:/")

/-! ## MountInterface.on_mounts_info_updated — reconciliation -/

/-- The per-config normalization of `on_mounts_info_updated`: if the card's
`fs` is truthy and contains `":/"`, split at the first `":/"` and rejoin
with a bare `":"` (`"webdav:/path"` becomes `"webdav:path"`); otherwise the
path is left unchanged. -/
def normalizeCardPath (s : String) : String :=
  if s = "" then s
  else
    match splitFirstAux (':' :: '/' :: []) [] s.data with
    | some (protocol, path) => String.mk (protocol ++ ':' :: path)
    | none => s

/-- The per-config mounted test of `on_mounts_info_updated`: the config's
`fs` is considered mounted iff it, or its normalized form, occurs among the
`Fs` fields reported by `/mount/listmounts`. A config with no live match
simply yields `false`. -/
def isMountedFor (cardFs : String) (live : List String) : Bool :=
  live.contains cardFs || live.contains (normalizeCardPath cardFs)

/-! ## RcloneManager — data model -/

/-- A JSON value as far as this code observes one (string, integer, list of
strings, boolean, null). -/
inductive JVal where
  | str (s : String)
  | int (n : Int)
  | strList (xs : List String)
  | bool (b : Bool)
  | null
deriving Repr, DecidableEq

/-- A parsed JSON object (Python dict) returned by the rclone rc API. -/
structure RcDict where
  entries : List (String × JVal)
deriving Repr, DecidableEq

/-- Python `k in d` for a dict. -/
def RcDict.hasKey (d : RcDict) (k : String) : Bool :=
  d.entries.any (fun e => e.1 == k)

/-- Python `d.get(k)` for a dict. -/
def RcDict.getKey (d : RcDict) (k : String) : Option JVal :=
  (d.entries.find? (fun e => e.1 == k)).map (fun e => e.2)

/-- Outcome of the one HTTP POST inside `_send_rc_command`, as the
environment decides it: a 2xx response with a JSON body, an
`httpx.HTTPStatusError` (4xx/5xx) carrying status code and body text, or an
`httpx.RequestError` (timeout, connection refused, ...) carrying a message. -/
inductive HttpOutcome where
  | ok (body : RcDict)
  | statusErr (code : Nat) (body : String)
  | netErr (msg : String)
deriving Repr, DecidableEq

/-- Python exceptions this embedding tracks. -/
inductive PyExc where
  | typeError
deriving Repr, DecidableEq

/-- The `logMessageReady` emissions, identified by message (text elided). -/
inductive LogMsg where
  | alreadyRunning | launching | authWarn | stopping | unmountSent
  | coreLine | coreOnline | coreStopped | restartingNow | forceKill
  | webdavExists | webdavMissing | webdavCheckFailed
deriving Repr, DecidableEq

/-- The `errorOccurred` emissions, identified by message. -/
inductive ErrMsg where
  | apiNotRunning | needRcd | unmountAllFailed | apiHttp (code : Nat) | apiNet
deriving Repr, DecidableEq

/-- Observable effects of the `RcloneManager` methods, in program order:
signal emissions, the HTTP POST of `_send_rc_command` (`sendRc`), process
control (`launch` = `QProcess.start`, `terminate`, `kill`), the status
timer, and the `QTimer.singleShot` registrations with their delays. -/
inductive Act where
  | log (m : LogMsg)
  | emitError (m : ErrMsg)
  | emitConfigRequired
  | emitState (running : Bool) (url : String)
  | emitMountsEmpty
  | sendRc (endpoint : String)
  | callCreateWebdav
  | launch
  | terminate
  | kill
  | timerStart (intervalMs : Nat)
  | timerStop
  | schedInitialSync (delayMs : Nat)
  | schedKillCheck (delayMs : Nat)
  | schedRestart (delayMs : Nat)
  | schedRefresh (delayMs : Nat)
deriving Repr, DecidableEq

/-- The mutable fields of `RcloneManager` relevant to supervision, plus the
state of its child-process handle: `hasProc` is `_core_process is not None`,
`procLive` is `_core_process.state() != QProcess.ProcessState.NotRunning`,
and `restartingProp` is the `"restarting"` property set on the handle. -/
structure CoreState where
  isCoreRunning : Bool
  rcUrl : Option String
  rcUser : Option String
  rcPass : Option String
  isStopping : Bool
  hasProc : Bool
  procLive : Bool
  restartingProp : Bool
  timerOn : Bool
deriving Repr, DecidableEq

/-- Python truthiness of `self.rc_url : Optional[str]`. -/
def truthyUrl : Option String → Bool
  | none => false
  | some u => u ≠ ""

/-- The environment a run of the controller observes: whether
`checkRcloneExist(cfg.rcloneWorkDirectory)` holds, the configured startup
parameter list, the HTTP outcome of the unmount-all POST, whether the child
process exits within 3000 ms of `terminate()`, and the first output line of
a freshly launched process (`none` when it prints nothing). -/
structure Env where
  pathResolves : Bool
  args : List String
  unmountOutcome : HttpOutcome
  exitsOnTerminate : Bool
  servingLine : Option String
deriving Repr, DecidableEq

/-! ## RcloneManager — control-API client and helpers -/

/-- `RcloneManager._send_rc_command(endpoint, params)`: if the core is not
running or the control URL is falsy, emit an error and return `None`
without any network request; otherwise POST (the `Act.sendRc` action) and
convert the outcome: 2xx gives the parsed body, an `HTTPStatusError` gives
`{"error": body, "status_code": code}` plus an `errorOccurred` emission, a
`RequestError` gives `{"error": msg, "status_code": -1}` likewise. -/
def sendRcCommand (s : CoreState) (endpoint : String) (outcome : HttpOutcome) :
    Option RcDict × List Act :=
  if !s.isCoreRunning || !(truthyUrl s.rcUrl) then
    (none, [Act.emitError ErrMsg.apiNotRunning])
  else
    match outcome with
    | HttpOutcome.ok d => (some d, [Act.sendRc endpoint])
    | HttpOutcome.statusErr c b =>
        (some ⟨[("error", JVal.str b), ("status_code", JVal.int (Int.ofNat c))]⟩,
         [Act.sendRc endpoint, Act.emitError (ErrMsg.apiHttp c)])
    | HttpOutcome.netErr m =>
        (some ⟨[("error", JVal.str m), ("status_code", JVal.int (-1))]⟩,
         [Act.sendRc endpoint, Act.emitError ErrMsg.apiNet])

/-- Python `"error" not in response` where `response : Optional[dict]`:
raises `TypeError` when the response is `None` (`argument of type
'NoneType' is not iterable`). -/
def pyKeyNotIn (k : String) : Option RcDict → Except PyExc Bool
  | none => Except.error PyExc.typeError
  | some d => Except.ok (!(d.hasKey k))

/-- `RcloneManager._ensure_webdav_remote()`: list the remotes; if the
response is truthy and its `"remotes"` value is a list, create the default
`webdav` remote when absent (the creation itself — `create_webdav_remote` —
is recorded as the opaque `Act.callCreateWebdav` action; no claim depends
on its internals); otherwise only log. A `None` response does nothing more. -/
def ensureWebdavRemote (s : CoreState) (outcome : HttpOutcome) : List Act :=
  let r := sendRcCommand s "/config/listremotes" outcome
  match r.1 with
  | none => r.2
  | some d =>
      match d.getKey "remotes" with
      | some (JVal.strList remotes) =>
          if d.entries.isEmpty then r.2
          else if remotes.contains "webdav" then r.2 ++ [Act.log LogMsg.webdavExists]
          else r.2 ++ [Act.log LogMsg.webdavMissing, Act.callCreateWebdav]
      | _ =>
          if d.entries.isEmpty then r.2
          else r.2 ++ [Act.log LogMsg.webdavCheckFailed]

/-! ## RcloneManager.mount — payload construction -/

/-- A persisted mount-configuration dict, with the optional fields read via
`dict.get` in the source (`fs` is read with `mount_config["fs"]` and is
present in every entry the dialog produces). -/
structure MountCfg where
  mount_point : Option String
  name : Option String
  network_mode : Option Bool
  vfs_cache_mode : Option String
  extra_args : Option String
  auto_mount : Option Bool
  fs : String
deriving Repr, DecidableEq

/-- The dict literal `{"off": 0, "minimal": 1, "writes": 2, "full": 3}.get(m)`. -/
def cacheModeMap (m : String) : Option Nat :=
  if m = "off" then some 0
  else if m = "minimal" then some 1
  else if m = "writes" then some 2
  else if m = "full" then some 3
  else none

/-- The JSON payload `RcloneManager.mount` posts to `/mount/mount`
(flattened: `mountOpt` and `vfsOpt` fields inlined). -/
structure MountPayload where
  fs : String
  mountPoint : String
  allowOther : Bool
  allowNonEmpty : Bool
  volumeName : String
  extraFlags : List String
  cacheMode : Option Nat
deriving Repr, DecidableEq

/-- The payload construction of `RcloneManager.mount`: on Windows a
single-letter alphabetic mount point gets a trailing colon; `AllowOther`
comes from `network_mode` (default `True`), `AllowNonEmpty` is always
`True`, `VolumeName` is the upper-cased name (default `"Rclone Mount"`),
`ExtraFlags` is the whitespace-split `extra_args` (default `""`), and the
VFS `CacheMode` is the integer code of `vfs_cache_mode` (default `"off"`). -/
def mountPayload (isWindows : Bool) (mountPoint : String) (c : MountCfg) :
    MountPayload :=
  let mpOS :=
    if isWindows && pySingleAlpha mountPoint then mountPoint ++ ":" else mountPoint
  { fs := c.fs
    mountPoint := mpOS
    allowOther := c.network_mode.getD true
    allowNonEmpty := true
    volumeName := pyUpperS (c.name.getD "Rclone Mount")
    extraFlags := pySplitWsS (c.extra_args.getD "")
    cacheMode := cacheModeMap (c.vfs_cache_mode.getD "off") }

/-- `RcloneManager.mount(mount_config)`: missing/empty `mount_point` fails
early; otherwise ensure the webdav remote, build the payload, POST
`/mount/mount`, and test `"error" not in response` — which raises
`TypeError` when the daemon was not running and the response is therefore
`None`. On success, a delayed status refresh is scheduled. The returned
`Bool` is the `"success"` field of the result dict. -/
def mountMethod (s : CoreState) (isWindows : Bool) (c : MountCfg)
    (ensureOutcome mountOutcome : HttpOutcome) :
    Except PyExc (Bool × List Act) :=
  match c.mount_point with
  | none => Except.ok (false, [])
  | some mp =>
    if mp = "" then Except.ok (false, [])
    else
      let aE := ensureWebdavRemote s ensureOutcome
      let _payload := mountPayload isWindows mp c
      let r := sendRcCommand s "/mount/mount" mountOutcome
      match pyKeyNotIn "error" r.1 with
      | Except.error e => Except.error e
      | Except.ok noErr =>
          if noErr then Except.ok (true, aE ++ r.2 ++ [Act.schedRefresh 1000])
          else Except.ok (false, aE ++ r.2)

/-! ## RcloneManager — core service lifecycle

The asynchronous machinery (TaskExecutor background task followed by a
`.then` continuation, `QTimer.singleShot` callbacks, the `finished` signal)
is modelled from the spec's concurrency section as a cooperative schedule:
each `...Flow` definition executes a method together with the continuations
it registers, in program order on the single core thread. `TaskExecutor`
itself (`app/common/concurrent.py`) is not part of the provided sources;
its `runTask(f).then(g)` is modelled from the spec: run `f`, then deliver
its result to `g` on the core thread. -/

/-- `args.index("--rc-user")` followed by `args[i + 1]`: the value after the
first occurrence of a flag, or `None` on `ValueError`/`IndexError`. -/
def flagValue : List String → String → Option String
  | [], _ => none
  | a :: rest, flag => if a == flag then rest.head? else flagValue rest flag

/-- `RcloneManager._get_rc_auth_from_config()`: extract `--rc-user` and
`--rc-pass` values; any failure leaves both `None` and logs a warning
(the `Bool` reports whether the warning was logged). -/
def parseRcAuth (args : List String) : Option String × Option String × Bool :=
  match flagValue args "--rc-user", flagValue args "--rc-pass" with
  | some u, some p => (some u, some p, false)
  | _, _ => (none, none, true)

/-- `RcloneManager._handle_core_output` on a single output line: blank
lines are skipped; every other line is logged; a line containing
`"Serving remote control on"` while the core is not yet marked running
sets `is_core_running`, records the control URL
(`line.split("on ")[-1].strip()`), emits the Running state event, starts
the 5000 ms status timer and schedules the initial sync after 500 ms. -/
def handleCoreOutputLine (line : String) (s : CoreState) : CoreState × List Act :=
  if pyStripS line = "" then (s, [])
  else if hasSubstrS "Serving remote control on" line && !s.isCoreRunning then
    let url := pyStripS (pySplitLastS "on " line)
    ({ s with isCoreRunning := true, rcUrl := some url, timerOn := true },
     [Act.log LogMsg.coreLine, Act.emitState true url, Act.log LogMsg.coreOnline,
      Act.timerStart 5000, Act.schedInitialSync 500])
  else (s, [Act.log LogMsg.coreLine])

/-- `RcloneManager.start_core_service()` plus the arrival of the first
output line of the launched process: a live process while `is_core_running`
makes the call a logged no-op; an unresolvable executable signals
`configurationRequired`; startup parameters without `"rcd"` signal an
error; otherwise RC credentials are parsed, a fresh process is launched
and its first output line (if any) is handled. The initial sync scheduled
on the serving line emits no `coreServiceStateChanged` signal, so it is
left as its scheduling action. -/
def startCoreServiceFlow (env : Env) (s : CoreState) : CoreState × List Act :=
  if s.isCoreRunning && s.hasProc && s.procLive then
    (s, [Act.log LogMsg.alreadyRunning])
  else if !env.pathResolves then (s, [Act.emitConfigRequired])
  else if !(env.args.contains "rcd") then (s, [Act.emitError ErrMsg.needRcd])
  else
    let auth := parseRcAuth env.args
    let s1 : CoreState :=
      { s with hasProc := true, procLive := true, restartingProp := false,
               rcUser := auth.1, rcPass := auth.2.1 }
    let aLaunch :=
      (if auth.2.2 then [Act.log LogMsg.authWarn] else [])
        ++ [Act.log LogMsg.launching, Act.launch]
    match env.servingLine with
    | none => (s1, aLaunch)
    | some line =>
        let r := handleCoreOutputLine line s1
        (r.1, aLaunch ++ r.2)

/-- `RcloneManager._on_core_process_finished()`: read and clear the
`restarting` property, reset the running state, URL, stopping flag and
timer, emit the Stopped state event and an empty mount list; if a restart
was pending, schedule `start_core_service` after 1000 ms (executed here
cooperatively). -/
def onCoreProcessFinished (env : Env) (s : CoreState) : CoreState × List Act :=
  let restarting := s.hasProc && s.restartingProp
  let s1 : CoreState :=
    { s with isCoreRunning := false, rcUrl := none, isStopping := false,
             timerOn := false, restartingProp := false }
  let acts := [Act.emitState false "", Act.timerStop, Act.emitMountsEmpty,
               Act.log LogMsg.coreStopped]
  if restarting then
    let r := startCoreServiceFlow env s1
    (r.1, acts ++ [Act.log LogMsg.restartingNow, Act.schedRestart 1000] ++ r.2)
  else (s1, acts)

/-- `RcloneManager.stop_core_service()` together with its continuation
chain: a call while not running or already stopping is a no-op; an
unresolvable executable signals `configurationRequired` and returns; with a
live process the stopping flag is set, the unmount-all command is sent from
the worker task, its result is examined by `on_unmount_finished`
(`"error" not in response`, raising `TypeError` on a `None` response) which
terminates the process regardless; the 3000 ms kill check then either finds
the process exited (graceful case) or kills it, and the `finished` handler
runs. -/
def stopCoreServiceFlow (env : Env) (s : CoreState) :
    Except PyExc (CoreState × List Act) :=
  if !s.isCoreRunning || s.isStopping then Except.ok (s, [])
  else if !env.pathResolves then Except.ok (s, [Act.emitConfigRequired])
  else if s.procLive then
    let s1 : CoreState := { s with isStopping := true }
    let r := sendRcCommand s1 "/mount/unmountall" env.unmountOutcome
    match pyKeyNotIn "error" r.1 with
    | Except.error e => Except.error e
    | Except.ok noErr =>
        let aNote :=
          if noErr then [Act.log LogMsg.unmountSent]
          else [Act.emitError ErrMsg.unmountAllFailed]
        let aTerm := [Act.terminate, Act.schedKillCheck 3000]
        let fin := onCoreProcessFinished env { s1 with procLive := false }
        if env.exitsOnTerminate then
          Except.ok (fin.1, Act.log LogMsg.stopping :: r.2 ++ aNote ++ aTerm ++ fin.2)
        else
          Except.ok (fin.1, Act.log LogMsg.stopping :: r.2 ++ aNote ++ aTerm
            ++ [Act.log LogMsg.forceKill, Act.kill] ++ fin.2)
  else Except.ok (s, [])

/-- `RcloneManager.restart_core_service()`: while not running it simply
starts; while running with a process handle it sets the `restarting`
property and stops (the `finished` handler then schedules the start). -/
def restartCoreServiceFlow (env : Env) (s : CoreState) :
    Except PyExc (CoreState × List Act) :=
  if !s.isCoreRunning then Except.ok (startCoreServiceFlow env s)
  else if s.hasProc then
    stopCoreServiceFlow env { s with restartingProp := true }
  else Except.ok (s, [])

/-! ## State events and the Running/Stopped alternation -/

/-- The two kinds of `coreServiceStateChanged` payloads. -/
inductive StEv where
  | running
  | stopped
deriving Repr, DecidableEq

/-- The state event (if any) an action represents. -/
def actEvent : Act → Option StEv
  | Act.emitState true _ => some StEv.running
  | Act.emitState false _ => some StEv.stopped
  | _ => none

/-- The `coreServiceStateChanged` events of an action trace, in order. -/
def stateEvents (l : List Act) : List StEv :=
  l.filterMap actEvent

/-- The state events of a flow result (an uncaught exception emits none). -/
def flowEvents (r : Except PyExc (CoreState × List Act)) : List StEv :=
  match r with
  | Except.ok p => stateEvents p.2
  | Except.error _ => []

/-- The only two emission sites of `coreServiceStateChanged` in the source,
abstracted over the `is_core_running` flag they are guarded by:
`_handle_core_output` emits `(True, url)` only when `is_core_running` is
false (and sets it); `_on_core_process_finished` emits `(False, "")` and
clears it; every other handler emits no state event and leaves the flag
unchanged. -/
inductive CoreStep : Bool → Option StEv → Bool → Prop
  | serving : CoreStep false (some StEv.running) true
  | finished (b : Bool) : CoreStep b (some StEv.stopped) false
  | other (b : Bool) : CoreStep b none b

/-- Traces of `CoreStep`: `CoreTrace b evs b'` holds when some interleaving
of handler invocations starting with `is_core_running = b` emits exactly
`evs` and ends with the flag `b'`. -/
inductive CoreTrace : Bool → List StEv → Bool → Prop
  | nil (b : Bool) : CoreTrace b [] b
  | emit {b b' b'' : Bool} {e : StEv} {evs : List StEv} :
      CoreStep b (some e) b' → CoreTrace b' evs b'' → CoreTrace b (e :: evs) b''
  | silent {b b' b'' : Bool} {evs : List StEv} :
      CoreStep b none b' → CoreTrace b' evs b'' → CoreTrace b evs b''

/-- Event lists compatible with the guard on the Running emission: a
Running event requires the flag to be clear and sets it; a Stopped event
clears it. -/
def okEvents : Bool → List StEv → Bool
  | _, [] => true
  | r, StEv.running :: t => !r && okEvents true t
  | _, StEv.stopped :: t => okEvents false t

/-! ## AlistService — start guard -/

/-- The `AlistService` state relevant to `start()`: the running flag and
whether `_main_process` is set. -/
structure AlistState where
  isRunning : Bool
  hasProc : Bool
deriving Repr, DecidableEq

/-- Observable effects of `AlistService.start()`. -/
inductive AlistAct where
  | logAlreadyRunning
  | configRequired
  | logExec
  | launch (args : List String)
deriving Repr, DecidableEq

/-- The environment of `AlistService.start()`: whether
`checkAlistExist(cfg.alistWorkDirectory)` holds, and the common startup
parameters. -/
structure AlistEnv where
  pathResolves : Bool
  params : List String
deriving Repr, DecidableEq

/-- `AlistService.start()`: a logged no-op while running with a process
handle; otherwise `_run_command(["server"] + params, ...)`, which signals
`configurationRequired` (and leaves `_main_process = None`) when the work
directory has no valid executable, else logs and launches the process. -/
def alistStart (env : AlistEnv) (s : AlistState) : AlistState × List AlistAct :=
  if s.isRunning && s.hasProc then (s, [AlistAct.logAlreadyRunning])
  else if !env.pathResolves then
    ({ s with hasProc := false }, [AlistAct.configRequired])
  else
    ({ s with hasProc := true },
     [AlistAct.logExec, AlistAct.launch ("server" :: env.params)])

/-! ## Helper lemmas -/

/-- Replacing a pattern by itself is the identity, whatever the fuel. -/
theorem pyReplaceFuel_self (old : List Char) :
    ∀ (fuel : Nat) (s : List Char), pyReplaceFuel old old fuel s = s := by
  intro fuel
  induction fuel with
  | zero => intro s; rfl
  | succ fuel ih =>
    intro s
    match s with
    | [] => rfl
    | c :: t =>
      rw [pyReplaceFuel]
      by_cases h : old ≠ [] ∧ old.isPrefixOf (c :: t)
      · rw [if_pos h]
        obtain ⟨t', ht⟩ := List.isPrefixOf_iff_prefix.mp h.2
        rw [← ht, List.drop_left, ih t', ht]
      · rw [if_neg h]
        rw [ih t]

/-- The character-replacement step of `_format_log_line` is the identity:
each of its three replacements maps a character to itself. -/
theorem escapePass_id (t : String) : escapePass t = t := by
  simp only [escapePass, pyReplaceS, pyReplaceL]
  rw [pyReplaceFuel_self, pyReplaceFuel_self, pyReplaceFuel_self]

/-- `takeAnsiParams` only succeeds by consuming at least the final `m`. -/
theorem takeAnsiParams_length :
    ∀ {u r : List Char}, takeAnsiParams u = some r → r.length < u.length := by
  intro u
  induction u with
  | nil => intro r h; simp [takeAnsiParams] at h
  | cons c t ih =>
    intro r h
    rw [takeAnsiParams] at h
    by_cases h1 : c.isDigit || c = ';'
    · rw [if_pos h1] at h
      have := ih h
      simp only [List.length_cons]
      omega
    · rw [if_neg h1] at h
      by_cases h2 : c = 'm'
      · rw [if_pos h2] at h
        cases h
        simp
      · rw [if_neg h2] at h
        cases h

/-- A successful ANSI-sequence match strictly shortens the input. -/
theorem ansiMatch_length {s r : List Char} (h : ansiMatch s = some r) :
    r.length < s.length := by
  unfold ansiMatch at h
  split at h
  · have := takeAnsiParams_length h
    simp only [List.length_cons]
    omega
  · cases h

/-- `ansiStripFuel` does not depend on the fuel once it exceeds the input
length. -/
theorem ansiStripFuel_irrel :
    ∀ (f : Nat) (s : List Char) (g : Nat), s.length < f → s.length < g →
      ansiStripFuel f s = ansiStripFuel g s := by
  intro f
  induction f with
  | zero => intro s g hf _; exact absurd hf (Nat.not_lt_zero _)
  | succ f ih =>
    intro s g hf hg
    match s with
    | [] =>
      match g with
      | 0 => exact absurd hg (Nat.not_lt_zero 0)
      | g + 1 => rfl
    | c :: t =>
      match g with
      | 0 => exact absurd hg (Nat.not_lt_zero _)
      | g + 1 =>
        rw [ansiStripFuel, ansiStripFuel]
        cases hm : ansiMatch (c :: t) with
        | some rest =>
          have hlen := ansiMatch_length hm
          simp only [List.length_cons] at hf hg hlen
          exact ih rest g (by omega) (by omega)
        | none =>
          simp only [List.length_cons] at hf hg
          rw [ih t g (by omega) (by omega)]

/-- With only digits and semicolons before the final `m`, the parameter
scanner consumes exactly the escape-sequence body. -/
theorem takeAnsiParams_params :
    ∀ (ds rest : List Char), (∀ c ∈ ds, c.isDigit = true ∨ c = ';') →
      takeAnsiParams (ds ++ 'm' :: rest) = some rest := by
  intro ds
  induction ds with
  | nil =>
    intro rest _
    rw [List.nil_append, takeAnsiParams]
    rw [if_neg (by decide), if_pos (by decide)]
  | cons d ds ih =>
    intro rest h
    rw [List.cons_append, takeAnsiParams]
    have hd : (d.isDigit || d = ';') = true := by
      rcases h d (List.mem_cons_self d ds) with h1 | h1 <;> simp [h1]
    rw [if_pos hd]
    exact ih rest (fun c hc => h c (List.mem_cons_of_mem d hc))

/-- Dropping one ANSI escape sequence: stripping a string that starts with
`ESC [ params m` strips the remainder. -/
theorem ansiStripL_escape (ds rest : List Char)
    (h : ∀ c ∈ ds, c.isDigit = true ∨ c = ';') :
    ansiStripL ('\x1b' :: '[' :: (ds ++ 'm' :: rest)) = ansiStripL rest := by
  have hmatch : ansiMatch ('\x1b' :: '[' :: (ds ++ 'm' :: rest)) = some rest := by
    rw [show ansiMatch ('\x1b' :: '[' :: (ds ++ 'm' :: rest))
          = takeAnsiParams (ds ++ 'm' :: rest) from rfl]
    exact takeAnsiParams_params ds rest h
  rw [ansiStripL, ansiStripL]
  rw [show ('\x1b' :: '[' :: (ds ++ 'm' :: rest)).length + 1
        = (('[' :: (ds ++ 'm' :: rest)).length + 1) + 1 from by simp]
  rw [ansiStripFuel, hmatch]
  apply ansiStripFuel_irrel
  · simp only [List.length_cons, List.length_append]
    omega
  · omega

/-- Locating the first `":/"` in `remote ++ ":/" ++ path` when the remote
name contains no colon: the split happens exactly at the remote name. -/
theorem splitFirstAux_remote :
    ∀ (remote acc path : List Char), (∀ c ∈ remote, c ≠ ':') →
      splitFirstAux (':' :: '/' :: []) acc (remote ++ ':' :: '/' :: path)
        = some (acc.reverse ++ remote, path) := by
  intro remote
  induction remote with
  | nil =>
    intro acc path _
    rw [List.nil_append, splitFirstAux]
    rw [if_pos (by simp [List.isPrefixOf])]
    simp
  | cons c r ih =>
    intro acc path h
    have hc : c ≠ ':' := h c (List.mem_cons_self c r)
    rw [List.cons_append, splitFirstAux]
    rw [if_neg (fun hpre => by
      simp only [List.isPrefixOf, Bool.and_eq_true, beq_iff_eq] at hpre
      exact hc hpre.1.symm)]
    rw [ih (c :: acc) path (fun d hd => h d (List.mem_cons_of_mem c hd))]
    simp

/-- Every `CoreStep` trace respects the guard on the Running emission. -/
theorem coreTrace_okEvents {b b' : Bool} {evs : List StEv}
    (h : CoreTrace b evs b') : okEvents b evs = true := by
  induction h with
  | nil => rfl
  | emit hstep _ ih =>
    cases hstep with
    | serving => simpa [okEvents] using ih
    | finished => simpa [okEvents] using ih
  | silent hstep _ ih =>
    cases hstep
    exact ih

/-- After a Running event, a guard-respecting run continues with the flag
set. -/
theorem okEvents_after_running :
    ∀ (p rest : List StEv) (b : Bool),
      okEvents b (p ++ StEv.running :: rest) = true → okEvents true rest = true := by
  intro p
  induction p with
  | nil =>
    intro rest b h
    rw [List.nil_append, okEvents] at h
    exact (Bool.and_eq_true _ _ |>.mp h).2
  | cons e p ih =>
    intro rest b h
    cases e with
    | running =>
      rw [List.cons_append, okEvents] at h
      exact ih rest true (Bool.and_eq_true _ _ |>.mp h).2
    | stopped =>
      rw [List.cons_append, okEvents] at h
      exact ih rest false h

/-- A guard-respecting event list cannot have two Running events with no
Stopped event in between. -/
theorem okEvents_no_running_running {b : Bool} {evs p m q : List StEv}
    (h : okEvents b evs = true)
    (he : evs = p ++ (StEv.running :: m) ++ (StEv.running :: q)) :
    StEv.stopped ∈ m := by
  subst he
  rw [List.append_assoc, List.cons_append] at h
  have h1 : okEvents true (m ++ StEv.running :: q) = true :=
    okEvents_after_running p _ b h
  match m, h1 with
  | [], h1 => simp [okEvents] at h1
  | StEv.running :: m', h1 => simp [okEvents] at h1
  | StEv.stopped :: m', _ => exact List.mem_cons_self _ _

/-- `(String.mk l).data = l`. -/
theorem stringDataMk (l : List Char) : (String.mk l).data = l := rfl

/-! ## Claim theorems -/

/-- C7: the remote-path inputs `"/music"`, `"music"` and `"\music"` (the
platform path separator, a single backslash) all derive the same
`fsExpression` `"webdav:/music"` on the platform that uses backslash
separators. -/
theorem fs_expression_path_normalization :
    (deriveRemoteAndFs true "/music").2 = "webdav:/music"
    ∧ (deriveRemoteAndFs true "music").2 = "webdav:/music"
    ∧ (deriveRemoteAndFs true "\\music").2 = "webdav:/music" := by
  decide

/-- C3: for every configured entry whose `fsExpression` has the shape
`remote:/path` (with a colon-free remote name, as every entry built by the
dialog has) and every live mount list, reconciliation reports the entry
mounted exactly when the expression in one of its two normalized forms —
with or without the separator after the remote-name colon — occurs in the
live list; an entry with no live match yields `false` (unmounted), never an
error; in particular configured `"webdav:/docs"` matches live
`"webdav:docs"`. -/
theorem mount_reconciliation_normalized_match
    (remote path : List Char) (live : List String)
    (hc : ∀ c ∈ remote, c ≠ ':') :
    (isMountedFor (String.mk (remote ++ ':' :: '/' :: path)) live
      = (live.contains (String.mk (remote ++ ':' :: '/' :: path))
         || live.contains (String.mk (remote ++ ':' :: path))))
    ∧ (∀ fs : String, isMountedFor fs [] = false)
    ∧ isMountedFor "webdav:/docs" ["webdav:docs"] = true := by
  refine ⟨?_, fun fs => by simp [isMountedFor], by decide⟩
  have hne : String.mk (remote ++ ':' :: '/' :: path) ≠ "" := by
    intro h
    have h3 := congrArg String.data h
    simp at h3
  have hsplit : splitFirstAux (':' :: '/' :: []) []
      ((String.mk (remote ++ ':' :: '/' :: path)).data) = some (remote, path) := by
    rw [stringDataMk]
    simpa using splitFirstAux_remote remote [] path hc
  unfold isMountedFor normalizeCardPath
  rw [if_neg hne, hsplit]

/-- Witness for C3 at a concrete remote, path and live list. -/
theorem mount_reconciliation_normalized_match_witness :
    isMountedFor (String.mk ("webdav".data ++ ':' :: '/' :: "Music".data))
        ["webdav:Music"]
      = (["webdav:Music"].contains (String.mk ("webdav".data ++ ':' :: '/' :: "Music".data))
         || ["webdav:Music"].contains (String.mk ("webdav".data ++ ':' :: "Music".data))) :=
  (mount_reconciliation_normalized_match "webdav".data "Music".data
    ["webdav:Music"] (by decide)).1

/-- C4: the payload `RcloneManager.mount` builds on the drive-letter
platform turns a single-letter mount point `X` into `"X:"`, always sets
allow-non-empty, upper-cases the config name into the volume name,
whitespace-splits `extra_args` into the extra flags, takes allow-other from
`network_mode`, passes `fs` through, and maps the cache mode by the integer
codes off=0, minimal=1, writes=2, full=3. -/
theorem mount_payload_fields (nm fsv mp cm ea : String) (net : Bool)
    (hmp : pySingleAlpha mp = true) :
    (mountPayload true mp ⟨some mp, some nm, some net, some cm, some ea, none, fsv⟩).mountPoint
        = mp ++ ":"
    ∧ (mountPayload true mp ⟨some mp, some nm, some net, some cm, some ea, none, fsv⟩).allowNonEmpty
        = true
    ∧ (mountPayload true mp ⟨some mp, some nm, some net, some cm, some ea, none, fsv⟩).volumeName
        = pyUpperS nm
    ∧ (mountPayload true mp ⟨some mp, some nm, some net, some cm, some ea, none, fsv⟩).extraFlags
        = pySplitWsS ea
    ∧ (mountPayload true mp ⟨some mp, some nm, some net, some cm, some ea, none, fsv⟩).allowOther
        = net
    ∧ (mountPayload true mp ⟨some mp, some nm, some net, some cm, some ea, none, fsv⟩).fs
        = fsv
    ∧ (mountPayload true mp ⟨some mp, some nm, some net, some cm, some ea, none, fsv⟩).cacheMode
        = cacheModeMap cm
    ∧ cacheModeMap "off" = some 0 ∧ cacheModeMap "minimal" = some 1
    ∧ cacheModeMap "writes" = some 2 ∧ cacheModeMap "full" = some 3 := by
  refine ⟨?_, rfl, rfl, rfl, rfl, rfl, rfl, rfl, rfl, rfl, rfl⟩
  simp [mountPayload, hmp]

/-- Witness for C4: the spec scenario `{name: "MyDav", fs: "webdav:/docs",
mountPoint: "Z"}` on the drive-letter platform. -/
theorem mount_payload_fields_witness :
    (mountPayload true "Z" ⟨some "Z", some "MyDav", some false, some "writes",
        some " -v  --fast-list ", none, "webdav:/docs"⟩).mountPoint = "Z" ++ ":"
    ∧ (mountPayload true "Z" ⟨some "Z", some "MyDav", some false, some "writes",
        some " -v  --fast-list ", none, "webdav:/docs"⟩).allowNonEmpty = true
    ∧ (mountPayload true "Z" ⟨some "Z", some "MyDav", some false, some "writes",
        some " -v  --fast-list ", none, "webdav:/docs"⟩).volumeName = pyUpperS "MyDav"
    ∧ (mountPayload true "Z" ⟨some "Z", some "MyDav", some false, some "writes",
        some " -v  --fast-list ", none, "webdav:/docs"⟩).extraFlags
        = pySplitWsS " -v  --fast-list "
    ∧ (mountPayload true "Z" ⟨some "Z", some "MyDav", some false, some "writes",
        some " -v  --fast-list ", none, "webdav:/docs"⟩).allowOther = false
    ∧ (mountPayload true "Z" ⟨some "Z", some "MyDav", some false, some "writes",
        some " -v  --fast-list ", none, "webdav:/docs"⟩).fs = "webdav:/docs"
    ∧ (mountPayload true "Z" ⟨some "Z", some "MyDav", some false, some "writes",
        some " -v  --fast-list ", none, "webdav:/docs"⟩).cacheMode = cacheModeMap "writes"
    ∧ cacheModeMap "off" = some 0 ∧ cacheModeMap "minimal" = some 1
    ∧ cacheModeMap "writes" = some 2 ∧ cacheModeMap "full" = some 3 :=
  mount_payload_fields "MyDav" "webdav:/docs" "Z" "writes" " -v  --fast-list "
    false (by decide)

/-- C2: `_send_rc_command` fails immediately with no network request when
the core is not running or no control URL is known; a 4xx/5xx HTTP status
yields the error envelope with the status code and the response body; a
network-level failure yields the envelope with status code `-1` and the
failure message. -/
theorem send_rc_error_envelopes (s : CoreState) (ep : String)
    (outcome : HttpOutcome) :
    ((s.isCoreRunning = false ∨ truthyUrl s.rcUrl = false) →
      (sendRcCommand s ep outcome).1 = none
      ∧ ∀ e2, Act.sendRc e2 ∉ (sendRcCommand s ep outcome).2)
    ∧ (s.isCoreRunning = true → truthyUrl s.rcUrl = true →
      (∀ c b, outcome = HttpOutcome.statusErr c b →
        (sendRcCommand s ep outcome).1
          = some ⟨[("error", JVal.str b), ("status_code", JVal.int (Int.ofNat c))]⟩)
      ∧ (∀ m, outcome = HttpOutcome.netErr m →
        (sendRcCommand s ep outcome).1
          = some ⟨[("error", JVal.str m), ("status_code", JVal.int (-1))]⟩)) := by
  constructor
  · intro h
    have hcond : (!s.isCoreRunning || !(truthyUrl s.rcUrl)) = true := by
      rcases h with h | h <;> simp [h]
    refine ⟨by simp [sendRcCommand, hcond], fun e2 => by simp [sendRcCommand, hcond]⟩
  · intro h1 h2
    constructor
    · intro c b hout
      subst hout
      simp [sendRcCommand, h1, h2]
    · intro m hout
      subst hout
      simp [sendRcCommand, h1, h2]

/-- Witness for C2: a stopped daemon rejects the call without network
traffic, and a running daemon turns a 500 response and a network failure
into the documented envelopes. -/
theorem send_rc_error_envelopes_witness :
    ((sendRcCommand ⟨false, none, none, none, false, false, false, false, false⟩
        "/mount/mount" (HttpOutcome.ok ⟨[]⟩)).1 = none
      ∧ ∀ e2, Act.sendRc e2 ∉ (sendRcCommand
          ⟨false, none, none, none, false, false, false, false, false⟩
          "/mount/mount" (HttpOutcome.ok ⟨[]⟩)).2)
    ∧ (sendRcCommand ⟨true, some "http://127.0.0.1:5572/", none, none, false,
          true, true, false, true⟩ "/config/create"
        (HttpOutcome.statusErr 500 "boom")).1
      = some ⟨[("error", JVal.str "boom"), ("status_code", JVal.int (Int.ofNat 500))]⟩
    ∧ (sendRcCommand ⟨true, some "http://127.0.0.1:5572/", none, none, false,
          true, true, false, true⟩ "/config/create"
        (HttpOutcome.netErr "timeout")).1
      = some ⟨[("error", JVal.str "timeout"), ("status_code", JVal.int (-1))]⟩ :=
  ⟨(send_rc_error_envelopes _ "/mount/mount" _).1 (Or.inl rfl),
   ((send_rc_error_envelopes _ "/config/create" _).2 rfl (by decide)).1 500 "boom" rfl,
   ((send_rc_error_envelopes _ "/config/create" _).2 rfl (by decide)).2 "timeout" rfl⟩

/-- C6: a second `start` while a controller is Running with a live child
process launches nothing and changes no state — for both the mount-daemon
controller (`start_core_service`) and the listing-service controller
(`AlistService.start`) the call is a no-op aside from a logged warning. -/
theorem second_start_is_noop (env : Env) (s : CoreState)
    (aenv : AlistEnv) (a : AlistState)
    (h1 : s.isCoreRunning = true) (h2 : s.hasProc = true) (h3 : s.procLive = true)
    (h4 : a.isRunning = true) (h5 : a.hasProc = true) :
    startCoreServiceFlow env s = (s, [Act.log LogMsg.alreadyRunning])
    ∧ Act.launch ∉ [Act.log LogMsg.alreadyRunning]
    ∧ alistStart aenv a = (a, [AlistAct.logAlreadyRunning])
    ∧ ∀ l, AlistAct.launch l ∉ [AlistAct.logAlreadyRunning] := by
  refine ⟨?_, by decide, ?_, fun l => by simp⟩
  · simp [startCoreServiceFlow, h1, h2, h3]
  · simp [alistStart, h4, h5]

/-- Witness for C6 at concrete running states. -/
theorem second_start_is_noop_witness :
    startCoreServiceFlow ⟨true, ["rcd"], HttpOutcome.ok ⟨[]⟩, true, none⟩
        ⟨true, some "http://127.0.0.1:5572/", none, none, false, true, true, false, true⟩
      = (⟨true, some "http://127.0.0.1:5572/", none, none, false, true, true, false, true⟩,
         [Act.log LogMsg.alreadyRunning])
    ∧ Act.launch ∉ [Act.log LogMsg.alreadyRunning]
    ∧ alistStart ⟨true, []⟩ ⟨true, true⟩ = (⟨true, true⟩, [AlistAct.logAlreadyRunning])
    ∧ ∀ l, AlistAct.launch l ∉ [AlistAct.logAlreadyRunning] :=
  second_start_is_noop _ _ _ _ rfl rfl rfl rfl rfl

/-- C10: a stop request while Running and not stopping, with no valid
daemon executable in the configured work directory, only signals
`configurationRequired`: the state (running flag, control URL, stopping
flag, timer) is returned unchanged, no unmount-all command is sent and the
process is neither terminated nor killed. -/
theorem stop_noop_without_executable (env : Env) (s : CoreState)
    (h1 : s.isCoreRunning = true) (h2 : s.isStopping = false)
    (h3 : env.pathResolves = false) :
    stopCoreServiceFlow env s = Except.ok (s, [Act.emitConfigRequired])
    ∧ (∀ ep, Act.sendRc ep ∉ [Act.emitConfigRequired])
    ∧ Act.terminate ∉ [Act.emitConfigRequired]
    ∧ Act.kill ∉ [Act.emitConfigRequired] := by
  refine ⟨?_, fun ep => by simp, by decide, by decide⟩
  simp [stopCoreServiceFlow, h1, h2, h3]

/-- Witness for C10 at a concrete Running state with an unresolvable
executable path. -/
theorem stop_noop_without_executable_witness :
    stopCoreServiceFlow ⟨false, ["rcd"], HttpOutcome.ok ⟨[]⟩, true, none⟩
        ⟨true, some "http://127.0.0.1:5572/", none, none, false, true, true, false, true⟩
      = Except.ok
          (⟨true, some "http://127.0.0.1:5572/", none, none, false, true, true, false, true⟩,
           [Act.emitConfigRequired])
    ∧ (∀ ep, Act.sendRc ep ∉ [Act.emitConfigRequired])
    ∧ Act.terminate ∉ [Act.emitConfigRequired]
    ∧ Act.kill ∉ [Act.emitConfigRequired] :=
  stop_noop_without_executable _ _ rfl rfl rfl

/-- C8: calling `mount` while the daemon is not Running raises an uncaught
`TypeError` (`"error" not in response` with `response = None`) that unwinds
past the controller method — the failure is not converted into a signaled
notification. -/
theorem mount_raises_type_error_when_not_running :
    mountMethod ⟨false, none, none, none, false, false, false, false, false⟩ true
      ⟨some "Z", some "MyDav", some true, some "off", some "", some false, "webdav:/docs"⟩
      (HttpOutcome.ok ⟨[]⟩) (HttpOutcome.ok ⟨[]⟩)
      = Except.error PyExc.typeError := rfl

/-- Derived shape (not a source translation): the `errorOccurred` actions
`_send_rc_command` emits alongside the POST, per HTTP outcome. -/
def sendErrActs : HttpOutcome → List Act
  | HttpOutcome.ok _ => []
  | HttpOutcome.statusErr c _ => [Act.emitError (ErrMsg.apiHttp c)]
  | HttpOutcome.netErr _ => [Act.emitError ErrMsg.apiNet]

/-- Derived shape (not a source translation): the action
`on_unmount_finished` emits before terminating, per HTTP outcome. -/
def unmountNoteActs : HttpOutcome → List Act
  | HttpOutcome.ok d =>
      if d.hasKey "error" then [Act.emitError ErrMsg.unmountAllFailed]
      else [Act.log LogMsg.unmountSent]
  | HttpOutcome.statusErr _ _ => [Act.emitError ErrMsg.unmountAllFailed]
  | HttpOutcome.netErr _ => [Act.emitError ErrMsg.unmountAllFailed]

/-- Normal form of the stop flow from a healthy Running state with no
restart pending: unmount-all POST, notification, terminate, scheduled kill
check, conditional forced kill, then the finished-handler actions. -/
theorem stopFlow_normal (env : Env) (s : CoreState) (u : String)
    (h1 : s.isCoreRunning = true) (h2 : s.isStopping = false)
    (h3 : s.rcUrl = some u) (h4 : u ≠ "")
    (h5 : env.pathResolves = true) (h6 : s.procLive = true)
    (h7 : s.restartingProp = false) :
    stopCoreServiceFlow env s = Except.ok
      (⟨false, none, s.rcUser, s.rcPass, false, s.hasProc, false, false, false⟩,
       (Act.log LogMsg.stopping :: Act.sendRc "/mount/unmountall"
           :: sendErrActs env.unmountOutcome)
         ++ unmountNoteActs env.unmountOutcome
         ++ [Act.terminate, Act.schedKillCheck 3000]
         ++ (if env.exitsOnTerminate then []
             else [Act.log LogMsg.forceKill, Act.kill])
         ++ [Act.emitState false "", Act.timerStop, Act.emitMountsEmpty,
             Act.log LogMsg.coreStopped]) := by
  rcases houtc : env.unmountOutcome with d | ⟨c, b⟩ | m
  all_goals
    rcases hexit : env.exitsOnTerminate with _ | _
  all_goals
    simp [stopCoreServiceFlow, sendRcCommand, pyKeyNotIn, onCoreProcessFinished,
      sendErrActs, unmountNoteActs, truthyUrl, RcDict.hasKey,
      h1, h2, h3, h4, h5, h6, h7, houtc, hexit]
  all_goals
    rcases hkey : d.hasKey "error" with _ | _ <;>
      (simp only [RcDict.hasKey] at hkey; simp [hkey])

/-- C1 counterexample: a stop request while the daemon is Running and no
stop is in progress, but with no valid executable in the configured work
directory, issues no unmount-all command and no terminate at all — it only
signals `configurationRequired` — refuting the unconditional claim. -/
theorem stop_skips_unmountall_counterexample :
    stopCoreServiceFlow ⟨false, ["rcd"], HttpOutcome.ok ⟨[]⟩, false, none⟩
        ⟨true, some "http://127.0.0.1:5573/", none, none, false, true, true, false, true⟩
      = Except.ok
          (⟨true, some "http://127.0.0.1:5573/", none, none, false, true, true, false, true⟩,
           [Act.emitConfigRequired])
    ∧ Act.sendRc "/mount/unmountall" ∉ [Act.emitConfigRequired]
    ∧ Act.terminate ∉ [Act.emitConfigRequired] := by
  refine ⟨rfl, by decide, by decide⟩

/-- C1 (amended): for every stop request while the controller is Running
with a known control URL, not already stopping, the executable resolving,
the child process live and no restart pending: the unmount-all control
command is issued before anything touches the process; whatever the
command's outcome, the process is then asked to terminate; the forced-kill
check is scheduled 3000 ms after the terminate request and a kill is issued
exactly when the process has not exited by then; and a stop request while a
stop is already in progress is a no-op. -/
theorem stop_unmounts_then_terminates (env : Env) (s : CoreState) (u : String)
    (h1 : s.isCoreRunning = true) (h2 : s.isStopping = false)
    (h3 : s.rcUrl = some u) (h4 : u ≠ "")
    (h5 : env.pathResolves = true) (h6 : s.procLive = true)
    (h7 : s.restartingProp = false) :
    (∃ sFin pre post,
      stopCoreServiceFlow env s = Except.ok (sFin, pre ++ Act.terminate :: post)
      ∧ Act.sendRc "/mount/unmountall" ∈ pre
      ∧ Act.terminate ∉ pre ∧ Act.kill ∉ pre
      ∧ post.head? = some (Act.schedKillCheck 3000)
      ∧ (env.exitsOnTerminate = false → Act.kill ∈ post)
      ∧ (env.exitsOnTerminate = true → Act.kill ∉ post))
    ∧ (∀ (env2 : Env) (s2 : CoreState), s2.isStopping = true →
        stopCoreServiceFlow env2 s2 = Except.ok (s2, [])) := by
  constructor
  · refine ⟨⟨false, none, s.rcUser, s.rcPass, false, s.hasProc, false, false, false⟩,
      Act.log LogMsg.stopping :: Act.sendRc "/mount/unmountall"
        :: sendErrActs env.unmountOutcome ++ unmountNoteActs env.unmountOutcome,
      Act.schedKillCheck 3000
        :: (if env.exitsOnTerminate then []
            else [Act.log LogMsg.forceKill, Act.kill])
        ++ [Act.emitState false "", Act.timerStop, Act.emitMountsEmpty,
            Act.log LogMsg.coreStopped], ?_, ?_, ?_, ?_, ?_, ?_, ?_⟩
    · rw [stopFlow_normal env s u h1 h2 h3 h4 h5 h6 h7]
      simp
    · simp
    · rcases env.unmountOutcome with d | ⟨c, b⟩ | m
      · rcases hkey : d.hasKey "error" with _ | _ <;>
          simp [sendErrActs, unmountNoteActs, hkey]
      · simp [sendErrActs, unmountNoteActs]
      · simp [sendErrActs, unmountNoteActs]
    · rcases env.unmountOutcome with d | ⟨c, b⟩ | m
      · rcases hkey : d.hasKey "error" with _ | _ <;>
          simp [sendErrActs, unmountNoteActs, hkey]
      · simp [sendErrActs, unmountNoteActs]
      · simp [sendErrActs, unmountNoteActs]
    · simp
    · intro hex
      simp [hex]
    · intro hex
      simp [hex]
  · intro env2 s2 hstop
    simp [stopCoreServiceFlow, hstop]

/-- Witness for C1 at a concrete Running state, with an unmount-all call
that fails over the network and a process that ignores the terminate
request (so the kill fires). -/
theorem stop_unmounts_then_terminates_witness :
    (∃ sFin pre post,
      stopCoreServiceFlow ⟨true, ["rcd"], HttpOutcome.netErr "boom", false, none⟩
          ⟨true, some "http://127.0.0.1:5572/", none, none, false, true, true, false, true⟩
        = Except.ok (sFin, pre ++ Act.terminate :: post)
      ∧ Act.sendRc "/mount/unmountall" ∈ pre
      ∧ Act.terminate ∉ pre ∧ Act.kill ∉ pre
      ∧ post.head? = some (Act.schedKillCheck 3000)
      ∧ (false = false → Act.kill ∈ post)
      ∧ (false = true → Act.kill ∉ post))
    ∧ (∀ (env2 : Env) (s2 : CoreState), s2.isStopping = true →
        stopCoreServiceFlow env2 s2 = Except.ok (s2, [])) :=
  stop_unmounts_then_terminates
    ⟨true, ["rcd"], HttpOutcome.netErr "boom", false, none⟩
    ⟨true, some "http://127.0.0.1:5572/", none, none, false, true, true, false, true⟩
    "http://127.0.0.1:5572/" rfl rfl rfl (by decide) rfl rfl rfl

/-- C5 counterexample: invoking `restart` while the daemon is Stopped only
starts it — the state events it emits are exactly `[Running]`, with no
Stopped event before the Running one, refuting "every restart invocation
emits Stopped followed by Running". -/
theorem restart_from_stopped_counterexample :
    flowEvents (restartCoreServiceFlow
        ⟨true, ["rcd", "--rc-user", "u", "--rc-pass", "p"], HttpOutcome.ok ⟨[]⟩, true,
          some "2024/01/01 NOTICE: Serving remote control on http://127.0.0.1:5572/"⟩
        ⟨false, none, none, none, false, false, false, false, false⟩)
      = [StEv.running]
    ∧ StEv.stopped ∉ [StEv.running] := by
  refine ⟨rfl, by decide⟩

/-- C5 (amended): a `restart` invocation while the controller is Running —
with a known control URL, no stop in progress, a live process, a resolving
executable, `rcd` among the startup parameters and the relaunched process
printing its serving line — emits exactly a Stopped event followed by a
Running event, whatever the unmount-all outcome and however the process
exits; an invocation while Stopped behaves as a plain start (see the
counterexample). Moreover no execution of the controller ever emits two
Running events without a Stopped event in between. -/
theorem restart_emits_stopped_then_running (env : Env) (s : CoreState)
    (u line : String)
    (h1 : s.isCoreRunning = true) (h2 : s.isStopping = false)
    (h3 : s.rcUrl = some u) (h4 : u ≠ "")
    (h5 : env.pathResolves = true) (h6 : s.procLive = true) (h7 : s.hasProc = true)
    (h8 : env.args.contains "rcd" = true)
    (h9 : env.servingLine = some line)
    (h10 : hasSubstrS "Serving remote control on" line = true)
    (h11 : pyStripS line ≠ "") :
    flowEvents (restartCoreServiceFlow env s) = [StEv.stopped, StEv.running]
    ∧ (∀ (evs : List StEv) (bEnd : Bool), CoreTrace false evs bEnd →
        ∀ p m q, evs = p ++ (StEv.running :: m) ++ (StEv.running :: q) →
          StEv.stopped ∈ m) := by
  constructor
  · have h8m : "rcd" ∈ env.args := by simpa using h8
    rcases houtc : env.unmountOutcome with d | ⟨c, b⟩ | m
    · rcases hkey : d.hasKey "error" with _ | _ <;>
        rcases hexit : env.exitsOnTerminate with _ | _ <;>
        rcases hw : (parseRcAuth env.args).2.2 with _ | _ <;>
        simp [restartCoreServiceFlow, stopCoreServiceFlow, sendRcCommand,
          pyKeyNotIn, onCoreProcessFinished, startCoreServiceFlow,
          handleCoreOutputLine, flowEvents, stateEvents, actEvent, truthyUrl,
          h1, h2, h3, h4, h5, h6, h7, h8m, h9, h10, h11, houtc, hexit, hw, hkey]
    · rcases hexit : env.exitsOnTerminate with _ | _ <;>
        rcases hw : (parseRcAuth env.args).2.2 with _ | _ <;>
        simp [restartCoreServiceFlow, stopCoreServiceFlow, sendRcCommand,
          pyKeyNotIn, onCoreProcessFinished, startCoreServiceFlow,
          handleCoreOutputLine, flowEvents, stateEvents, actEvent, truthyUrl,
          RcDict.hasKey, h1, h2, h3, h4, h5, h6, h7, h8m, h9, h10, h11, houtc,
          hexit, hw]
    · rcases hexit : env.exitsOnTerminate with _ | _ <;>
        rcases hw : (parseRcAuth env.args).2.2 with _ | _ <;>
        simp [restartCoreServiceFlow, stopCoreServiceFlow, sendRcCommand,
          pyKeyNotIn, onCoreProcessFinished, startCoreServiceFlow,
          handleCoreOutputLine, flowEvents, stateEvents, actEvent, truthyUrl,
          RcDict.hasKey, h1, h2, h3, h4, h5, h6, h7, h8m, h9, h10, h11, houtc,
          hexit, hw]
  · intro evs bEnd htr p m q he
    exact okEvents_no_running_running (coreTrace_okEvents htr) he

/-- Witness for C5 at a concrete Running state and serving line, plus the
no-Running-Running invariant applied to the concrete trace
`[running, stopped, running]`. -/
theorem restart_emits_stopped_then_running_witness :
    flowEvents (restartCoreServiceFlow
        ⟨true, ["rcd", "--rc-user", "u", "--rc-pass", "p"],
          HttpOutcome.statusErr 500 "boom", false,
          some "NOTICE: Serving remote control on http://127.0.0.1:5572/"⟩
        ⟨true, some "http://127.0.0.1:5572/", some "u", some "p", false, true,
          true, false, true⟩)
      = [StEv.stopped, StEv.running]
    ∧ StEv.stopped ∈ [StEv.stopped] :=
  ⟨(restart_emits_stopped_then_running _ _ "http://127.0.0.1:5572/"
      "NOTICE: Serving remote control on http://127.0.0.1:5572/"
      rfl rfl rfl (by decide) rfl rfl rfl (by decide) rfl (by decide) (by decide)).1,
   (restart_emits_stopped_then_running
      ⟨true, ["rcd", "--rc-user", "u", "--rc-pass", "p"],
        HttpOutcome.statusErr 500 "boom", false,
        some "NOTICE: Serving remote control on http://127.0.0.1:5572/"⟩
      ⟨true, some "http://127.0.0.1:5572/", some "u", some "p", false, true,
        true, false, true⟩
      "http://127.0.0.1:5572/"
      "NOTICE: Serving remote control on http://127.0.0.1:5572/"
      rfl rfl rfl (by decide) rfl rfl rfl (by decide) rfl (by decide) (by decide)).2
     [StEv.running, StEv.stopped, StEv.running] true
     (CoreTrace.emit CoreStep.serving
       (CoreTrace.emit (CoreStep.finished true)
         (CoreTrace.emit CoreStep.serving (CoreTrace.nil true))))
     [] [StEv.stopped] [] rfl⟩

/-- C9 counterexample: the formatter does not escape markup-significant
characters — on the input `"<b>&x"` it returns the input verbatim, raw
`<`, `>` and `&` included, so they remain interpretable as markup. -/
theorem format_log_line_keeps_markup :
    formatLogLine "<b>&x" none = "<b>&x" ∧ '<' ∈ ("<b>&x" : String).data := by
  decide

/-- C9 (amended): the formatter's character-replacement step replaces `&`,
`<` and `>` each by themselves (no escaping); a given level is prefixed as
a colored tag before the ANSI-stripped line; ANSI escape sequences
`ESC [ params m` are stripped; and with no level given, every whole-word,
case-insensitive occurrence of each level keyword is replaced in place by a
colored span holding the upper-cased keyword (not only the first match), as
the concrete line `"info INFO infos"` shows. -/
theorem format_log_line_behavior :
    (∀ t : String, escapePass t = t)
    ∧ (∀ t lvl : String, formatLogLine t (some lvl)
        = "<span style=\"color: " ++ logColor lvl ++ ";\">" ++ lvl ++ ": </span>"
          ++ ansiStripS t)
    ∧ (∀ (ds rest : List Char), (∀ c ∈ ds, c.isDigit = true ∨ c = ';') →
        ansiStripL ('\x1b' :: '[' :: (ds ++ 'm' :: rest)) = ansiStripL rest)
    ∧ formatLogLine "info INFO infos" none
        = "<span style=\"color: #44AAFF;\">INFO</span> "
          ++ "<span style=\"color: #44AAFF;\">INFO</span> infos" := by
  refine ⟨escapePass_id, ?_, ansiStripL_escape, by decide⟩
  intro t lvl
  simp [formatLogLine, escapePass_id]

/-- Witness for C9 at concrete inputs: identity replacement on `"a&b"`, a
colored `WARN` tag, and stripping of the concrete sequence `ESC [ 3 1 m`. -/
theorem format_log_line_behavior_witness :
    escapePass "a&b" = "a&b"
    ∧ formatLogLine "x" (some "WARN")
        = "<span style=\"color: " ++ logColor "WARN" ++ ";\">" ++ "WARN" ++ ": </span>"
          ++ ansiStripS "x"
    ∧ ansiStripL ('\x1b' :: '[' :: (['3', '1'] ++ 'm' :: ("ok" : String).data))
        = ansiStripL ("ok" : String).data :=
  ⟨format_log_line_behavior.1 "a&b",
   format_log_line_behavior.2.1 "x" "WARN",
   format_log_line_behavior.2.2.1 ['3', '1'] ("ok" : String).data (by decide)⟩

end OpenList

